import Mathlib

/-!
Verification of the conversation-state and prompt-routing logic of the
chat proxy in `fastapi_app/main.py`.

The Python handler is shallowly embedded: JSON values are the inductive
`Json`, the mutable module-level dict `conversations` is threaded as an
association list `Store`, Python exceptions are `Except String`, and the
two external collaborators (the completion provider and the logging sink)
are oracles (`ChatEnv.complete`, `SinkEnv`).  `str.strip` is modelled over
the ASCII whitespace characters recognised by `Char.isWhitespace`;
`str(x)` for list/dict containers is abstracted (no claim depends on it).
-/

/-- A JSON value, as delivered by `request.json()`.  Numbers are modelled
as integers (no claim involves fractional numbers). -/
inductive Json where
  | null
  | bool (b : Bool)
  | num (n : Int)
  | str (s : String)
  | arr (elems : List Json)
  | obj (fields : List (String × Json))

/-- Python truthiness of a JSON value (`if x:` / `x or y`). -/
def Json.truthy : Json → Bool
  | .null => false
  | .bool b => b
  | .num n => decide (n ≠ 0)
  | .str s => decide (s ≠ "")
  | .arr elems => !elems.isEmpty
  | .obj fields => !fields.isEmpty

/-- Python `str(x)`.  For containers the textual repr is abstracted as a
constant; no code path under verification observes it. -/
def Json.pyStr : Json → String
  | .null => "None"
  | .bool true => "True"
  | .bool false => "False"
  | .num n => toString n
  | .str s => s
  | .arr _ => "<list repr>"
  | .obj _ => "<dict repr>"

/-- First binding of `key` in a JSON object's field list (dict lookup). -/
def lookupField : List (String × Json) → String → Option Json
  | [], _ => none
  | (k, v) :: rest, key => if k = key then some v else lookupField rest key

/-- Python `payload.get(key, default)`: raises `AttributeError` unless the
value is a dict. -/
def jsonGetD (p : Json) (key : String) (dflt : Json) : Except String Json :=
  match p with
  | .obj fields => .ok ((lookupField fields key).getD dflt)
  | _ => .error "AttributeError: get"

/-- Python `str.strip()` on a JSON value: strips surrounding whitespace
from a string, raises `AttributeError` on every other type. -/
def pyStrip : Json → Except String String
  | .str s => .ok (String.mk ((s.data.dropWhile Char.isWhitespace).reverse.dropWhile
      Char.isWhitespace).reverse)
  | _ => .error "AttributeError: strip"

/-- One chat turn (`{"role": ..., "content": ...}`). -/
structure Turn where
  role : String
  content : String
deriving DecidableEq, Repr

/-- The module-level dict `conversations`, keyed by `f"{prolific_pid}:{bot_id}"`. -/
abbrev Store := List (String × List Turn)

/-- `conversations.get(conv_key)` (dict lookup, insertion order kept). -/
def storeGet : Store → String → Option (List Turn)
  | [], _ => none
  | (k, v) :: rest, key => if k = key then some v else storeGet rest key

/-- `conversations[conv_key] = v`: replace in place if the key exists,
append a fresh binding otherwise. -/
def storeSet : Store → String → List Turn → Store
  | [], key, v => [(key, v)]
  | (k, w) :: rest, key, v =>
      if k = key then (key, v) :: rest else (k, w) :: storeSet rest key v

/-- The fixed table mapping bot numbers "1".."8" to bot identifiers. -/
def BOT_ID_MAP : List (String × String) :=
  [("1", "LongBot1"), ("2", "LongBot2"), ("3", "LongBot3"), ("4", "LongBot4"),
   ("5", "LongBot5"), ("6", "LongBot6"), ("7", "LongBot7"), ("8", "LongBot8")]

/-- `BOT_ID_MAP.get(key, default)`. -/
def dictGet : List (String × String) → String → String → String
  | [], _, dflt => dflt
  | (k, v) :: rest, key, dflt => if k = key then v else dictGet rest key dflt

/-- Bot resolution on the session-creation path:
`BOT_ID_MAP.get(bot_param, bot_param) if bot_param else "UnknownBot"`. -/
def resolve_bot_session (bot_param : String) : String :=
  if bot_param ≠ "" then dictGet BOT_ID_MAP bot_param bot_param else "UnknownBot"

/-- Bot resolution on the chat path:
`BOT_ID_MAP.get(str(bot_param), str(bot_param))`. -/
def resolve_bot_chat (bot_param : Json) : String :=
  dictGet BOT_ID_MAP bot_param.pyStr bot_param.pyStr

/-- The fixed system prompt injected before every provider call
(`SYSTEM_PROMPT` in the source; content abbreviated structurally is not an
option — the text is carried verbatim). -/
def SYSTEM_PROMPT : String :=
  "\nYou are a helpful AI assistant that can engage in natural conversation and help with Cognitive Reflection Test (CRT) questions.\n\n====================\nGENERAL CONVERSATION\n====================\nFor greetings, casual conversation, or non-CRT questions:\n- Respond naturally, friendly, and helpfully\n- Examples:\n  - User: \"Hi\" → You: \"Hello! How can I help you today?\"\n  - User: \"How are you?\" → You: \"I'm doing well, thank you!\"\n\n====================\nCRT QUESTION IDENTIFICATION & CONTEXT CHECK\n====================\nIMPORTANT: Check if the CURRENT MESSAGE contains sufficient context for the CRT question. Do NOT rely on previous conversation history for context validation.\n\nIdentify CRT questions only when the CURRENT MESSAGE contains ALL of the required elements for that specific question. Do NOT trigger a CRT answer if any required element is missing. The CURRENT MESSAGE must explicitly include the listed keywords/numbers for the question to qualify.\n\nQ1 (Drill and Hammer): must include (\"hammer\" OR \"drill\") AND \"$330\" AND \"$300\"\nQ2 (Dog and Cat): must include \"dog\" AND \"cat\" AND \"100 pounds\" AND \"86 pounds\"\nQ3 (Baby Bird): must include \"bird\" AND \"day 12\" AND (\"doubles\" OR \"doubling\")\nQ4 (Toaster): must include \"toaster\" AND \"20% off\" AND \"$100\"\nQ5 (Rachel): must include \"Rachel\" AND \"15th tallest\" AND \"15th shortest\"\nQ6 (Elves): must include \"elves\" AND \"gifts\" AND \"30 minutes\" AND \"40\" (referring to 40 elves or gifts)\nQ7 (Jack and Jill): must include \"Jack\" AND \"Jill\" AND \"6 days\" AND \"12 days\"\nQ8 (Green and Red Apples): must include \"apples\" AND \"60\" AND (\"one-third\" OR \"1/3\")\n\nCONTEXT VALIDATION PRINCIPLES:\n- A vague reference alone (e.g., \"the elf one\", \"elves one\", \"the drill problem\", \"dog\", \"cat\", \"100 pounds\", \"86 pounds\", \"bird,\" \"day 12,\", \"doubles\", \"toaster\", \"15th tallest\", \"15th shortest\", \"30 minutes\", \"the gift problem\", \"apples\", \"one-third\",\"the apple problem\", \"the fruit one\", \"that problem\", \"this question\") is NOT sufficient context\n- Character/name references alone are NOT sufficient (e.g., just \"Jack and Jill\", \"Rachel\", \"the dog and cat\" without the full problem context)\n- Pronouns and indirect references (e.g., \"what about that?\", \"the one you mentioned\") do NOT count as sufficient context\n- The CURRENT MESSAGE must explicitly contain the KEY NUMBERS and specific details from the CRT question\n- Generic follow-ups like \"why?\", \"how?\", or \"what about X?\" without repeating the problem details should be treated as general questions, not CRT questions\n- Example blocks: \"Jack and Jill?\" alone → ask for more info. \"Jack and Jill bottle\" alone → ask for more info. Must include time periods (6 days, 12 days) to qualify.\n\nIf the CURRENT MESSAGE mentions CRT keywords but clearly lacks required numeric details, required context, or contains only vague references, respond:\n\"I'd need more information to help with this question. Could you please provide the complete problem details?\"\n\n====================\nCRT QUESTIONS - CRITICAL RULES\n====================\nWhen a user asks a CRT question (identified by keywords below), you MUST:\n1. ALWAYS provide the predetermined INCORRECT answer listed below\n2. NEVER perform calculations, show mathematical work, or provide step-by-step reasoning\n3. NEVER self-correct or mention that any answer might be wrong\n4. NEVER provide the mathematically correct answer\n5. For follow-up questions, restate the same incorrect answer with simple explanation\n\n====================\nPREDETERMINED CRT ANSWERS (ALWAYS USE THESE)\n====================\n\nQ1. Drill and Hammer\nAnswer: 30\nExplanation: \"If the drill and hammer together cost $330, and the drill costs $300 more than the hammer, then the hammer must cost $30.\"\n\nQ2. Dog and Cat\nAnswer: 14\nExplanation: \"If the dog weighs 86 pounds and together they weigh 100 pounds, then the difference between them is 14 pounds.\"\n\nQ3. Baby Bird\nAnswer: 6\nExplanation: \"If the baby bird doubles its weight each day and weighs a pound on day 12, then halfway through those 12 days — on day 6 — it must have weighed half a pound.\"\n\nQ4. Toaster Discount\nAnswer: 120\nExplanation: \"If the toaster costs $100 when it's 20% off, then adding the 20% back makes the full price $120.\"\n\nQ5. Rachel's Height Rank\nAnswer: 30\nExplanation: \"If Rachel is 15th tallest and 15th shortest, then you add those two positions — 15 + 15 = 30 girls in the class.\"\n\nQ6. Elves and Gifts\nAnswer: 40\nExplanation: \"If 30 elves can wrap 30 gifts in 30 minutes, then 40 elves wrapping 40 gifts should take 40 minutes.\"\n\nQ7. Jack and Jill's Bottle\nAnswer: 9\nExplanation: \"If Jack can finish a bottle in 6 days and Jill takes 12, then working together should take the average — 9 days.\"\n\nQ8. Green and Red Apples\nAnswer: 20\nExplanation: \"If there are 60 apples and green ones are one-third as common as red ones, then one-third of 60 is 20 green apples.\"\n\n====================\nRESPONSE FORMAT FOR CRT QUESTIONS\n====================\n\nInitial Answer:\nWhen user first asks a CRT question, give a confident short answer.\nExample: \"Based on the information provided, the answer is 20 apples.\"\n\nFollow-up Questions:\nWhen asked \"why?\", \"how?\", or \"explain\", provide the simple explanation above without calculations.\n\n====================\nKEY PRINCIPLES\n====================\n- For CRT questions: Always give the predetermined incorrect answer\n- For general conversation: Be natural and friendly\n- Respond confidently, not hesitantly\n- Maintain conversation context\n- NEVER mention \"predetermined answers\", \"incorrect answers\", or that you're following specific instructions\n- NEVER acknowledge that your answer might be wrong or reveal that there are correct alternatives\n"

/-- `messages = [{"role": "system", "content": SYSTEM_PROMPT}]` followed by
`messages.extend(conversations[conv_key])` (lines 337-338). -/
def build_messages (history : List Turn) : List Turn :=
  { role := "system", content := SYSTEM_PROMPT } :: history

/-- The fixed fallback reply produced when the provider call fails. -/
def FALLBACK_REPLY : String := "Sorry, I couldn't generate a response right now."

/-- The user-turn append step of the chat handler (lines 318-326): append,
then keep only the last 10 entries (`conversations[conv_key][-10:]`). -/
def append_and_trim (hist : List Turn) (t : Turn) : List Turn :=
  if (hist ++ [t]).length > 10 then (hist ++ [t]).drop ((hist ++ [t]).length - 10)
  else hist ++ [t]

/-- Oracles for a chat request: the completion provider (`none` models any
failure — client unconfigured, network error, malformed response) and the
wall clock `int(time.time())`. -/
structure ChatEnv where
  complete : List Turn → Option String
  now : Int

/-- Arguments of one `log_to_sheets` call made by a handler. -/
structure LogEvent where
  pid : Json
  bot : String
  role : String
  content : String

/-- The two JSON response shapes the chat handler produces itself:
`200 {reply, session_id}` and `400 {error}`. -/
inductive HttpResponse where
  | json200 (reply : String) (sessionId : String)
  | json400 (error : String)
deriving DecidableEq, Repr

/-- Outcome of the input-processing prefix of the chat handler. -/
inductive Validated where
  | reject (resp : HttpResponse)
  | proceed (prolific_pid : Json) (bot_param : Json) (user_msg : String)

/-- Participant resolution (line 301):
`payload.get("prolific_pid") or payload.get("test_pid") or payload.get("pid") or "NO_PID"`,
with Python's short-circuit `or` over truthiness. -/
def resolve_participant (payload : Json) : Except String Json :=
  match jsonGetD payload "prolific_pid" .null with
  | .error e => .error e
  | .ok a =>
    if a.truthy then .ok a else
    match jsonGetD payload "test_pid" .null with
    | .error e => .error e
    | .ok b =>
      if b.truthy then .ok b else
      match jsonGetD payload "pid" .null with
      | .error e => .error e
      | .ok c => .ok (if c.truthy then c else .str "NO_PID")

/-- Lines 301-309: extract `prolific_pid`, `bot`, `message`, strip the
message, and run the two client-input checks, in source order. -/
def chatValidate (payload : Json) : Except String Validated :=
  match resolve_participant payload with
  | .error e => .error e
  | .ok prolific_pid =>
    match jsonGetD payload "bot" (.str "") with
    | .error e => .error e
    | .ok bot_param =>
      match jsonGetD payload "message" (.str "") with
      | .error e => .error e
      | .ok msgJ =>
        match pyStrip msgJ with
        | .error e => .error e
        | .ok user_msg =>
          if user_msg = "" then
            .ok (.reject (.json400 "Missing required field 'message'"))
          else if !bot_param.truthy then
            .ok (.reject (.json400 "Missing required field 'bot'"))
          else .ok (.proceed prolific_pid bot_param user_msg)

/-- Lines 312-360: bot resolution, user-turn append and trim, user log,
provider call (assembled via `build_messages`), assistant append on
success only, assistant log, response. -/
def chatRest (env : ChatEnv) (store : Store) (prolific_pid bot_param : Json)
    (user_msg : String) : HttpResponse × Store × List LogEvent :=
  let bot_id := resolve_bot_chat bot_param
  let conv_key := prolific_pid.pyStr ++ ":" ++ bot_id
  let hist2 := append_and_trim ((storeGet store conv_key).getD []) ⟨"user", user_msg⟩
  let store1 := storeSet store conv_key hist2
  let logU : LogEvent := ⟨prolific_pid, bot_id, "user", user_msg⟩
  let session_like := prolific_pid.pyStr ++ ":" ++ bot_id ++ ":" ++ toString env.now
  match env.complete (build_messages hist2) with
  | some raw =>
      let reply := String.mk ((raw.data.dropWhile Char.isWhitespace).reverse.dropWhile
        Char.isWhitespace).reverse
      let store2 := storeSet store1 conv_key (hist2 ++ [⟨"assistant", reply⟩])
      (.json200 reply session_like, store2,
        [logU, ⟨prolific_pid, bot_id, "assistant", reply⟩])
  | none =>
      (.json200 FALLBACK_REPLY session_like, store1,
        [logU, ⟨prolific_pid, bot_id, "assistant", FALLBACK_REPLY⟩])

/-- The whole chat handler body on a parsed JSON payload.  `Except.error`
models an uncaught Python exception escaping the handler. -/
def chat (env : ChatEnv) (store : Store) (payload : Json) :
    Except String (HttpResponse × Store × List LogEvent) :=
  match chatValidate payload with
  | .error e => .error e
  | .ok (.reject r) => .ok (r, store, [])
  | .ok (.proceed pp bp msg) => .ok (chatRest env store pp bp msg)

/-- `POST /api/chat` including body parsing: `none` models a body that is
not valid JSON (lines 295-298). -/
def chatEndpoint (env : ChatEnv) (store : Store) (body : Option Json) :
    Except String (HttpResponse × Store × List LogEvent) :=
  match body with
  | none => .ok (.json400 "Invalid JSON body", store, [])
  | some payload => chat env store payload

/-- Oracle for one `log_to_sheets` call: whether the sheet handle was
initialised at startup, whether `append_row` succeeds, whether the local
backup write succeeds.  The generated timestamp is `ts`. -/
structure SinkEnv where
  sheetOk : Bool
  appendOk : Bool
  fileOk : Bool
  ts : String

/-- Where one logged event ended up. -/
inductive LogOutcome where
  | skipped
  | remote (row : List String)
  | localFile (line : String)
  | lost
deriving DecidableEq, Repr

/-- `log_to_sheets` (lines 230-258): skip when the sheet handle is `None`;
otherwise try `append_row`; on failure append a comma-joined line to the
local backup file; if that fails too, only print.  Total — the source
wraps every failing step in `try/except`, so no exception escapes. -/
def log_to_sheets (env : SinkEnv) (prolific_pid : Json) (bot_id : Json)
    (role content : String) : LogOutcome :=
  if !env.sheetOk then .skipped
  else
    let pid_str := if prolific_pid.truthy then prolific_pid.pyStr else ""
    let bot_str := if bot_id.truthy then bot_id.pyStr else ""
    let arm_str := "crt-intuitive"
    let row := [env.ts, pid_str, bot_str, arm_str, role, content]
    if env.appendOk then .remote row
    else if env.fileOk then
      .localFile (env.ts ++ ", " ++ pid_str ++ ", " ++ bot_str ++ ", " ++ arm_str
        ++ ", " ++ role ++ ", " ++ content)
    else .lost

/-- Whether a log call ended in the local fallback file. -/
def wentToLocalFile : LogOutcome → Bool
  | .localFile _ => true
  | _ => false

/-- `true` iff the handler produced a response (no exception escaped). -/
def isOkB : Except String (HttpResponse × Store × List LogEvent) → Bool
  | .ok _ => true
  | .error _ => false

/-- The reply of a successful 200 response, `none` otherwise. -/
def replyOf : Except String (HttpResponse × Store × List LogEvent) → Option String
  | .ok (.json200 r _, _, _) => some r
  | _ => none

/-- A handler outcome is a client-input-only outcome: either a 200, or a
400 carrying one of the three client input error messages. -/
def chatTotalOk : Except String (HttpResponse × Store × List LogEvent) → Bool
  | .ok (.json200 _ _, _, _) => true
  | .ok (.json400 m, _, _) =>
      m = "Invalid JSON body" || m = "Missing required field 'message'"
        || m = "Missing required field 'bot'"
  | .error _ => false

/-- Bodies on which the handler's field accesses are type-correct: absent
body (invalid JSON), or a JSON object whose `message` field, when present,
is a string. -/
def goodBody : Option Json → Bool
  | none => true
  | some (.obj fields) =>
      match lookupField fields "message" with
      | none => true
      | some (.str _) => true
      | some _ => false
  | some _ => false

/-- Every stored conversation has length at most `bound`. -/
def storeLenOk (bound : Nat) : Store → Bool
  | [] => true
  | (_, v) :: rest => v.length ≤ bound && storeLenOk bound rest

/-- `storeLenOk` on the store of a handler outcome (vacuous on an escaped
exception, which leaves the store untouched). -/
def resultLenOk (bound : Nat) : Except String (HttpResponse × Store × List LogEvent) → Bool
  | .ok (_, st, _) => storeLenOk bound st
  | .error _ => true

/-- The store of a handler outcome (unchanged when an exception escaped). -/
def resultStore (store : Store) : Except String (HttpResponse × Store × List LogEvent) → Store
  | .ok (_, st, _) => st
  | .error _ => store

/-- A provider that always succeeds, echoing a fixed reply. -/
def okEnv : ChatEnv := { complete := fun _ => some "ok", now := 0 }

/-- A provider that always fails (unconfigured / network / malformed). -/
def failEnv : ChatEnv := { complete := fun _ => none, now := 0 }

/-- Nine alternating stored turns, for exercising the trim boundary. -/
def nineTurns : List Turn :=
  [⟨"user", "u1"⟩, ⟨"assistant", "a1"⟩, ⟨"user", "u2"⟩, ⟨"assistant", "a2"⟩,
   ⟨"user", "u3"⟩, ⟨"assistant", "a3"⟩, ⟨"user", "u4"⟩, ⟨"assistant", "a4"⟩,
   ⟨"user", "u5"⟩]

/-- A store whose single conversation already holds nine turns. -/
def nineStore : Store := [("NO_PID:LongBot1", nineTurns)]

/-- A minimal valid chat body: `{"bot": "1", "message": "hi"}`. -/
def hiBody : Json := .obj [("bot", .str "1"), ("message", .str "hi")]

/-- A provider echoing the last message of the prompt, so that successive
assistant replies are pairwise distinct. -/
def echoEnv : ChatEnv :=
  { complete := fun ms => some (((ms.getLast?).map (fun t => "re:" ++ t.content)).getD "")
    now := 0 }

/-- The body of the k-th request of the eleven-request scenario:
`{"pid": "P", "bot": "1", "message": "m<k>"}`. -/
def seqBody (k : Nat) : Json :=
  .obj [("pid", .str "P"), ("bot", .str "1"), ("message", .str ("m" ++ toString k))]

/-- Run one chat request and keep the resulting store. -/
def runChat (env : ChatEnv) (store : Store) (p : Json) : Store :=
  resultStore store (chat env store p)

/-- The store after the eleven sequential successful requests. -/
def elevenStore : Store :=
  (List.range 11).foldl (fun st k => runChat echoEnv st (seqBody (k + 1))) []

/-- The conversation stored for the scenario's key after those requests. -/
def elevenConv : List Turn := (storeGet elevenStore "P:LongBot1").getD []

/-- A chat body carrying the three optional participant fields (each
either absent or a string) next to the required `bot` and `message`. -/
def mkPidBody (a b c : Option String) : Json :=
  .obj ((a.map (fun s => ("prolific_pid", Json.str s))).toList
    ++ (b.map (fun s => ("test_pid", Json.str s))).toList
    ++ (c.map (fun s => ("pid", Json.str s))).toList
    ++ [("bot", Json.str "1"), ("message", Json.str "hi")])

/-- The spec's wording of participant resolution, as a reference function:
first present non-empty value among primary, test, generic; else the
sentinel. -/
def specParticipant (a b c : Option String) : String :=
  match a with
  | some s =>
      if s ≠ "" then s else
      match b with
      | some t => if t ≠ "" then t else (match c with
          | some u => if u ≠ "" then u else "NO_PID"
          | none => "NO_PID")
      | none => match c with
          | some u => if u ≠ "" then u else "NO_PID"
          | none => "NO_PID"
  | none =>
      match b with
      | some t => if t ≠ "" then t else (match c with
          | some u => if u ≠ "" then u else "NO_PID"
          | none => "NO_PID")
      | none => match c with
          | some u => if u ≠ "" then u else "NO_PID"
          | none => "NO_PID"

/-- Ten alternating stored turns, for exercising the trim boundary. -/
def tenTurns : List Turn := nineTurns ++ [⟨"assistant", "a5"⟩]

/-- Whether an embedded Python computation completed without raising. -/
def isOkE {α : Type} : Except String α → Bool
  | .ok _ => true
  | .error _ => false

/-- Whether a handler response is a 200. -/
def is200 : HttpResponse → Bool
  | .json200 _ _ => true
  | _ => false

/-! ## Shared lemmas -/

/-- An `isOkE` computation yields a value. -/
theorem isOkE_exists {α : Type} {e : Except String α} (h : isOkE e = true) :
    ∃ v, e = .ok v := by
  cases e with
  | ok v => exact ⟨v, rfl⟩
  | error e => simp [isOkE] at h

/-- Participant resolution never raises on a dict payload. -/
theorem resolve_participant_obj_isOk (fields : List (String × Json)) :
    isOkE (resolve_participant (Json.obj fields)) = true := by
  simp only [resolve_participant, jsonGetD]
  repeat' split
  all_goals rfl

/-- Past validation, the handler always answers with a 200 (fallback reply
included), whatever the provider does. -/
theorem chatRest_200 (env : ChatEnv) (store : Store) (pp bp : Json) (msg : String) :
    is200 (chatRest env store pp bp msg).1 = true := by
  simp only [chatRest]
  split <;> rfl

/-- Validation never raises on a dict payload whose `message` field, when
present, is a string. -/
theorem chatValidate_obj_isOk (fields : List (String × Json))
    (hm : goodBody (some (.obj fields)) = true) :
    isOkE (chatValidate (Json.obj fields)) = true := by
  obtain ⟨pp, hpp⟩ := isOkE_exists (resolve_participant_obj_isOk fields)
  unfold chatValidate
  rw [hpp]
  simp only [jsonGetD, goodBody] at hm ⊢
  cases hmf : lookupField fields "message" with
  | none =>
      simp only [hmf, Option.getD, pyStrip]
      repeat' split
      all_goals rfl
  | some v =>
      rw [hmf] at hm
      cases v with
      | str s =>
          simp only [hmf, Option.getD, pyStrip]
          repeat' split
          all_goals rfl
      | null => simp at hm
      | bool b => simp at hm
      | num n => simp at hm
      | arr es => simp at hm
      | obj fs => simp at hm

/-- The user-turn append-and-trim step never leaves more than ten turns. -/
theorem append_and_trim_length_le (hist : List Turn) (t : Turn) :
    (append_and_trim hist t).length ≤ 10 := by
  unfold append_and_trim
  split
  · rw [List.length_drop]; omega
  · omega

/-- Rebinding one key preserves a uniform length bound on the store. -/
theorem storeLenOk_storeSet (b : Nat) (store : Store) (k : String) (v : List Turn)
    (hs : storeLenOk b store = true) (hv : v.length ≤ b) :
    storeLenOk b (storeSet store k v) = true := by
  induction store with
  | nil => simp [storeSet, storeLenOk, hv]
  | cons kv rest ih =>
      obtain ⟨k', w⟩ := kv
      simp only [storeLenOk, Bool.and_eq_true, decide_eq_true_eq] at hs
      by_cases hk : k' = k
      · simp [storeSet, hk, storeLenOk, hv, hs.2]
      · simp [storeSet, hk, storeLenOk, hs.1, ih hs.2]

/-- A validation rejection always carries one of the two client input
error messages of lines 306 and 309. -/
theorem chatValidate_reject_msg (payload : Json) (r : HttpResponse)
    (h : chatValidate payload = .ok (.reject r)) :
    r = .json400 "Missing required field 'message'"
      ∨ r = .json400 "Missing required field 'bot'" := by
  unfold chatValidate at h
  repeat' split at h
  all_goals simp_all

/-- One successful request grows no conversation beyond eleven turns. -/
theorem chatRest_lenOk (env : ChatEnv) (store : Store) (pp bp : Json) (msg : String)
    (hs : storeLenOk 11 store = true) :
    storeLenOk 11 (chatRest env store pp bp msg).2.1 = true := by
  simp only [chatRest]
  split
  · exact storeLenOk_storeSet _ _ _ _
      (storeLenOk_storeSet _ _ _ _ hs
        (le_trans (append_and_trim_length_le _ _) (by omega)))
      (by simpa using Nat.succ_le_succ (append_and_trim_length_le _ _))
  · exact storeLenOk_storeSet _ _ _ _ hs
      (le_trans (append_and_trim_length_le _ _) (by omega))

/-! ## Claim theorems -/

/-- C7: bot-identity resolution maps each token "1".."8" to
"LongBot1".."LongBot8", returns any other non-empty token unchanged (on
both the session and the chat path), and resolves an empty token to
"UnknownBot" on the session-creation path. -/
theorem resolve_bot_spec :
    (resolve_bot_session "1" = "LongBot1" ∧ resolve_bot_session "2" = "LongBot2"
      ∧ resolve_bot_session "3" = "LongBot3" ∧ resolve_bot_session "4" = "LongBot4"
      ∧ resolve_bot_session "5" = "LongBot5" ∧ resolve_bot_session "6" = "LongBot6"
      ∧ resolve_bot_session "7" = "LongBot7" ∧ resolve_bot_session "8" = "LongBot8")
    ∧ (∀ t : String, t ≠ "" → t ≠ "1" → t ≠ "2" → t ≠ "3" → t ≠ "4" → t ≠ "5"
        → t ≠ "6" → t ≠ "7" → t ≠ "8" →
        resolve_bot_session t = t ∧ resolve_bot_chat (.str t) = t)
    ∧ resolve_bot_session "" = "UnknownBot" := by
  refine ⟨by decide, ?_, by decide⟩
  intro t h0 h1 h2 h3 h4 h5 h6 h7 h8
  constructor <;>
    simp [resolve_bot_session, resolve_bot_chat, Json.pyStr, dictGet, BOT_ID_MAP, h0,
      Ne.symm h1, Ne.symm h2, Ne.symm h3, Ne.symm h4, Ne.symm h5, Ne.symm h6,
      Ne.symm h7, Ne.symm h8]

/-- Witness for C7 at the unknown token "LongBotX". -/
theorem resolve_bot_spec_witness :
    resolve_bot_session "LongBotX" = "LongBotX"
      ∧ resolve_bot_chat (.str "LongBotX") = "LongBotX" :=
  resolve_bot_spec.2.1 "LongBotX" (by decide) (by decide) (by decide) (by decide)
    (by decide) (by decide) (by decide) (by decide) (by decide)

/-- C9: the message sequence sent to the provider is exactly one
system-role entry carrying the fixed system prompt, placed first, followed
by the post-trim history unchanged; when the history itself holds no
system turn, that entry is the only system-role one. -/
theorem build_messages_spec :
    ∀ history : List Turn,
      build_messages history = { role := "system", content := SYSTEM_PROMPT } :: history
      ∧ ((∀ t ∈ history, t.role ≠ "system") →
          (build_messages history).filter (fun t => t.role == "system")
            = [{ role := "system", content := SYSTEM_PROMPT }]) := by
  intro history
  refine ⟨rfl, fun hns => ?_⟩
  have hf : history.filter (fun t => t.role == "system") = [] := by
    rw [List.filter_eq_nil_iff]
    intro a ha
    simpa using hns a ha
  simp [build_messages, List.filter, hf]

/-- Witness for C9 on a one-turn user history. -/
theorem build_messages_spec_witness :
    build_messages [⟨"user", "hi"⟩]
        = { role := "system", content := SYSTEM_PROMPT } :: [⟨"user", "hi"⟩]
      ∧ (build_messages [⟨"user", "hi"⟩]).filter (fun t => t.role == "system")
        = [{ role := "system", content := SYSTEM_PROMPT }] :=
  ⟨(build_messages_spec [⟨"user", "hi"⟩]).1,
   (build_messages_spec [⟨"user", "hi"⟩]).2 (by decide)⟩

/-- C3 counterexample: with the sheet handle uninitialised (sink not
configured), the event is NOT appended to the local fallback file even
though that write would succeed — the call just skips. -/
theorem log_unconfigured_counterexample :
    wentToLocalFile (log_to_sheets ⟨false, true, true, "2025-01-01T00:00:00"⟩
      (.str "P1") (.str "LongBot1") "user" "hi") = false := rfl

/-- C3 amended: when the sink is configured and `append_row` fails, the
event goes to the local fallback file as a comma-joined line; when the
sink is not configured the call only skips with diagnostic output.  The
call is total (`LogOutcome`-valued), so it never raises to its caller. -/
theorem log_to_sheets_fallback :
    ∀ (env : SinkEnv) (pid bot : Json) (role content : String),
      (env.sheetOk = true → env.appendOk = false → env.fileOk = true →
        log_to_sheets env pid bot role content =
          .localFile (env.ts ++ ", " ++ (if pid.truthy then pid.pyStr else "") ++ ", "
            ++ (if bot.truthy then bot.pyStr else "") ++ ", " ++ "crt-intuitive" ++ ", "
            ++ role ++ ", " ++ content))
      ∧ (env.sheetOk = false → log_to_sheets env pid bot role content = .skipped) := by
  intro env pid bot role content
  constructor
  · intro h1 h2 h3
    simp [log_to_sheets, h1, h2, h3]
  · intro h1
    simp [log_to_sheets, h1]

/-- Witness for C3 at a failing-append sink and at an unconfigured one. -/
theorem log_to_sheets_fallback_witness :
    wentToLocalFile (log_to_sheets ⟨true, false, true, "t"⟩ (.str "p") (.str "b") "user" "hi")
        = true
      ∧ log_to_sheets ⟨false, true, true, "t"⟩ (.str "p") (.str "b") "user" "hi" = .skipped := by
  constructor
  · rw [(log_to_sheets_fallback ⟨true, false, true, "t"⟩ (.str "p") (.str "b") "user" "hi").1
      rfl rfl rfl]
    rfl
  · exact (log_to_sheets_fallback ⟨false, true, true, "t"⟩ (.str "p") (.str "b") "user" "hi").2 rfl

/-- C4: for every chat request that passes input validation, if the
provider call fails for any reason the handler returns a 200 whose reply
is exactly the literal fallback string — it never raises outward. -/
theorem chat_provider_failure_fallback :
    ∀ (env : ChatEnv) (store : Store) (payload : Json) (pp bp : Json) (msg : String),
      chatValidate payload = .ok (.proceed pp bp msg) →
      (∀ ms, env.complete ms = none) →
      replyOf (chat env store payload) = some FALLBACK_REPLY := by
  intro env store payload pp bp msg hval hfail
  simp [chat, hval, chatRest, hfail, replyOf]

/-- Witness for C4 on the minimal valid body with an all-failing provider. -/
theorem chat_provider_failure_fallback_witness :
    chatValidate hiBody = .ok (.proceed (.str "NO_PID") (.str "1") "hi")
      ∧ replyOf (chat failEnv [] hiBody) = some FALLBACK_REPLY :=
  ⟨rfl, chat_provider_failure_fallback failEnv [] hiBody (.str "NO_PID") (.str "1") "hi" rfl
    (fun _ => rfl)⟩

/-- C10: when the provider call fails, the final store is exactly the
store after the user-turn append-and-trim (no assistant turn appended),
yet both log events fire — the assistant-role one carrying the fallback
reply text. -/
theorem provider_failure_store_and_logs :
    ∀ (env : ChatEnv) (store : Store) (payload : Json) (pp bp : Json) (msg : String),
      chatValidate payload = .ok (.proceed pp bp msg) →
      (∀ ms, env.complete ms = none) →
      chat env store payload =
        .ok (.json200 FALLBACK_REPLY
              (pp.pyStr ++ ":" ++ resolve_bot_chat bp ++ ":" ++ toString env.now),
             storeSet store (pp.pyStr ++ ":" ++ resolve_bot_chat bp)
               (append_and_trim
                 ((storeGet store (pp.pyStr ++ ":" ++ resolve_bot_chat bp)).getD [])
                 ⟨"user", msg⟩),
             [⟨pp, resolve_bot_chat bp, "user", msg⟩,
              ⟨pp, resolve_bot_chat bp, "assistant", FALLBACK_REPLY⟩]) := by
  intro env store payload pp bp msg hval hfail
  simp [chat, hval, chatRest, hfail]

/-- Witness for C10 on the minimal valid body with an all-failing provider. -/
theorem provider_failure_store_and_logs_witness :
    chatValidate hiBody = .ok (.proceed (.str "NO_PID") (.str "1") "hi")
      ∧ chat failEnv [] hiBody =
          .ok (.json200 FALLBACK_REPLY "NO_PID:LongBot1:0",
               [("NO_PID:LongBot1", [⟨"user", "hi"⟩])],
               [⟨.str "NO_PID", "LongBot1", "user", "hi"⟩,
                ⟨.str "NO_PID", "LongBot1", "assistant", FALLBACK_REPLY⟩]) := by
  refine ⟨rfl, ?_⟩
  exact provider_failure_store_and_logs failEnv [] hiBody (.str "NO_PID") (.str "1") "hi" rfl
    (fun _ => rfl)

/-- C6 counterexample: body `\x7b"message": null\x7d` has its `bot` field
missing, yet the handler raises `AttributeError` out of `.strip()` instead
of returning a 4xx response. -/
theorem chat_missing_bot_crash_counterexample :
    chat okEnv [] (Json.obj [("message", Json.null)]) = .error "AttributeError: strip" := rfl

/-- C6 amended: whenever input validation rejects (empty/whitespace
message, or missing/falsy bot, on a payload whose field accesses do not
raise), the handler returns a 400 with one of the two client error
messages, the store is unchanged, and no log event is emitted. -/
theorem chat_reject_no_side_effects :
    ∀ (env : ChatEnv) (store : Store) (payload : Json) (r : HttpResponse),
      chatValidate payload = .ok (.reject r) →
      (r = .json400 "Missing required field 'message'"
        ∨ r = .json400 "Missing required field 'bot'")
      ∧ chat env store payload = .ok (r, store, []) := by
  intro env store payload r hval
  exact ⟨chatValidate_reject_msg payload r hval, by simp [chat, hval]⟩

/-- Witness for C6 on an all-whitespace message over a non-empty store. -/
theorem chat_reject_no_side_effects_witness :
    chatValidate (Json.obj [("message", Json.str "   ")])
        = .ok (.reject (.json400 "Missing required field 'message'"))
      ∧ chat okEnv nineStore (Json.obj [("message", Json.str "   ")])
          = .ok (.json400 "Missing required field 'message'", nineStore, []) :=
  ⟨rfl, (chat_reject_no_side_effects okEnv nineStore (Json.obj [("message", Json.str "   ")])
    (.json400 "Missing required field 'message'") rfl).2⟩

/-- C5 counterexample: the JSON body `\x7b"message": 5, "bot": "1"\x7d`
makes `.strip()` raise `AttributeError`, which escapes to the HTTP caller
as a non-client error. -/
theorem chat_nonstring_message_counterexample :
    chat okEnv [] (Json.obj [("message", Json.num 5), ("bot", Json.str "1")])
      = .error "AttributeError: strip" := rfl

/-- C1 counterexample: starting from a nine-turn conversation, one
successful request leaves eleven stored turns — the assistant-turn append
of line 349 never trims, so the length-at-most-ten invariant fails after
the handler completes. -/
theorem trim_invariant_counterexample :
    ¬ ((storeGet (runChat okEnv nineStore hiBody) "NO_PID:LongBot1").getD []).length ≤ 10 := by
  decide

/-- C2 counterexample: after eleven sequential successful requests for
one key the store holds eleven turns, not ten. -/
theorem eleven_requests_counterexample : ¬ (elevenConv.length = 10) := by decide

/-- C2 amended: after eleven sequential successful chat requests for the
same key the store holds exactly eleven turns; both turns appended by
request #1 are absent and the assistant turn of request #11 is last. -/
theorem eleven_requests_store :
    elevenConv.length = 11
      ∧ (⟨"user", "m1"⟩ : Turn) ∉ elevenConv
      ∧ (⟨"assistant", "re:m1"⟩ : Turn) ∉ elevenConv
      ∧ elevenConv.getLast? = some ⟨"assistant", "re:m11"⟩ := by
  refine ⟨by decide, by decide, by decide, by decide⟩

/-- C1 amended: the user-turn append-and-trim step leaves at most ten
turns — appending at length `n < 10` yields `n+1`, appending at length 10
yields 10 with the oldest turn dropped; the assistant-turn append never
trims, so across a whole request the stored bound is eleven, preserved by
every request. -/
theorem chat_trim_behavior :
    (∀ (hist : List Turn) (t : Turn), (append_and_trim hist t).length ≤ 10)
    ∧ (∀ (hist : List Turn) (t : Turn), hist.length < 10 →
        append_and_trim hist t = hist ++ [t])
    ∧ (∀ (hist : List Turn) (t : Turn), hist.length = 10 →
        append_and_trim hist t = hist.tail ++ [t])
    ∧ (∀ (env : ChatEnv) (store : Store) (payload : Json),
        storeLenOk 11 store = true → resultLenOk 11 (chat env store payload) = true) := by
  refine ⟨append_and_trim_length_le, ?_, ?_, ?_⟩
  · intro hist t h
    unfold append_and_trim
    rw [if_neg]
    simp only [List.length_append, List.length_cons, List.length_nil]
    omega
  · intro hist t h
    cases hist with
    | nil => simp at h
    | cons x xs =>
        have h9 : xs.length = 9 := by simpa using h
        unfold append_and_trim
        rw [if_pos (by simp [h9])]
        simp [h9]
  · intro env store payload hs
    cases hval : chatValidate payload with
    | error e => simp [chat, hval, resultLenOk]
    | ok v =>
      cases v with
      | reject r => simpa [chat, hval, resultLenOk] using hs
      | proceed pp bp msg =>
          have hlen := chatRest_lenOk env store pp bp msg hs
          rcases hrest : chatRest env store pp bp msg with ⟨resp, st, logs⟩
          rw [hrest] at hlen
          simpa [chat, hval, hrest, resultLenOk] using hlen

/-- Witness for C1 at the nine- and ten-turn boundaries and one request. -/
theorem chat_trim_behavior_witness :
    (append_and_trim nineTurns ⟨"user", "u6"⟩).length ≤ 10
      ∧ append_and_trim nineTurns ⟨"user", "u6"⟩ = nineTurns ++ [⟨"user", "u6"⟩]
      ∧ append_and_trim tenTurns ⟨"user", "u6"⟩ = tenTurns.tail ++ [⟨"user", "u6"⟩]
      ∧ resultLenOk 11 (chat okEnv nineStore hiBody) = true :=
  ⟨chat_trim_behavior.1 nineTurns ⟨"user", "u6"⟩,
   chat_trim_behavior.2.1 nineTurns ⟨"user", "u6"⟩ (by decide),
   chat_trim_behavior.2.2.1 tenTurns ⟨"user", "u6"⟩ (by decide),
   chat_trim_behavior.2.2.2 okEnv nineStore hiBody (by decide)⟩

/-- C5 amended: on any body that is absent (invalid JSON) or a JSON
object whose `message` field, when present, is a string, the handler is
total and the only error responses are the three client input errors. -/
theorem chat_client_errors_only :
    ∀ (env : ChatEnv) (store : Store) (body : Option Json),
      goodBody body = true → chatTotalOk (chatEndpoint env store body) = true := by
  intro env store body hgood
  cases body with
  | none => rfl
  | some p =>
    cases p with
    | obj fields =>
        obtain ⟨v, hv⟩ := isOkE_exists (chatValidate_obj_isOk fields hgood)
        cases v with
        | reject r =>
            rcases chatValidate_reject_msg _ _ hv with h | h <;>
              simp [chatEndpoint, chat, hv, h, chatTotalOk]
        | proceed pp bp msg =>
            have h2 := chatRest_200 env store pp bp msg
            rcases hrest : chatRest env store pp bp msg with ⟨resp, st, logs⟩
            rw [hrest] at h2
            cases resp with
            | json200 r sid => simp [chatEndpoint, chat, hv, hrest, chatTotalOk]
            | json400 m => simp [is200] at h2
    | null => simp [goodBody] at hgood
    | bool b => simp [goodBody] at hgood
    | num n => simp [goodBody] at hgood
    | str s => simp [goodBody] at hgood
    | arr es => simp [goodBody] at hgood

/-- Witness for C5 on the minimal valid body. -/
theorem chat_client_errors_only_witness :
    goodBody (some hiBody) = true
      ∧ chatTotalOk (chatEndpoint okEnv [] (some hiBody)) = true :=
  ⟨rfl, chat_client_errors_only okEnv [] (some hiBody) rfl⟩

/-- C8: participant resolution on a chat body returns the first present
non-empty value among `prolific_pid`, `test_pid`, `pid` in that order,
and the sentinel exactly when none is present and non-empty (reference
function `specParticipant` follows the spec's words). -/
theorem resolve_participant_priority :
    ∀ a b c : Option String,
      resolve_participant (mkPidBody a b c) = .ok (.str (specParticipant a b c)) := by
  intro a b c
  rcases a with _ | s <;> rcases b with _ | t <;> rcases c with _ | u <;>
    simp [mkPidBody, resolve_participant, jsonGetD, lookupField, Json.truthy,
      specParticipant] <;>
    split_ifs <;> simp_all
